import Mathlib

/-!
Verification development for the action-server core of rcl_action
(src/rcl_action/action_server.c): goal-table data model, stamp
conversions, goal acceptance, cancel-request resolution, and the
expiration sweep, embedded shallowly and checked against the
specification's claims.
-/

set_option linter.unusedVariables false

/-- Message stamp as carried by a GoalInfo (builtin_interfaces Time): the C
fields are int32 sec and uint32 nanosec.  We carry both as mathematical
integers and apply the C narrowing conversions explicitly at the points
where the source performs them. -/
structure GoalStamp where
  sec : Int
  nanosec : Int
deriving DecidableEq

/-- GoalInfo: a 16-byte uuid (modelled as the natural number its bytes
encode; uuidcmp is bytewise equality and uuidcmpzero tests the all-zero
uuid, so equality of the encodings is a faithful model) plus a stamp. -/
structure GoalInfo where
  uuid : Nat
  stamp : GoalStamp
deriving DecidableEq

/-- External goal handle (rcl_action_goal_handle_t) as the server core
observes it: its immutable GoalInfo together with the two state predicates
the core consults, rcl_action_goal_handle_is_active and
rcl_action_goal_handle_is_cancelable. -/
structure GoalHandle where
  info : GoalInfo
  active : Bool
  cancelable : Bool
deriving DecidableEq

/-- C conversion of a wider signed value to int32 (two's-complement wrap,
as performed by the (int32_t) cast in the source). -/
def wrapInt32 (x : Int) : Int := (x + 2147483648) % 4294967296 - 2147483648

/-- C conversion of a signed value to uint32 (reduction mod 2^32, as
performed by storing into the uint32 nanosec field). -/
def wrapUInt32 (x : Int) : Int := x % 4294967296

/-- RCUTILS_S_TO_NS: seconds to nanoseconds in int64 arithmetic. -/
def S_TO_NS (s : Int) : Int := s * 1000000000

/-- RCUTILS_NS_TO_S: nanoseconds to seconds; C int64 division truncates
toward zero, which is Int.tdiv. -/
def NS_TO_S (ns : Int) : Int := Int.tdiv ns 1000000000

/-- Source helper _goal_info_stamp_to_nanosec: RCUTILS_S_TO_NS(stamp.sec)
plus the (zero-extended) nanosec field, computed in int64.  For int32 sec
and uint32 nanosec the int64 sum cannot overflow, so unbounded integers
are faithful here. -/
def goal_info_stamp_to_nanosec (g : GoalInfo) : Int :=
  S_TO_NS g.stamp.sec + g.stamp.nanosec

/-- Source helper _nanosec_to_goal_info_stamp: sec receives the (int32_t)
cast of the truncating division by 10^9, nanosec receives the C remainder
(truncated, sign of the dividend) stored into the uint32 field. -/
def nanosec_to_goal_info_stamp (t : Int) (g : GoalInfo) : GoalInfo :=
  { g with stamp := { sec := wrapInt32 (NS_TO_S t),
                      nanosec := wrapUInt32 (Int.tmod t 1000000000) } }

/-- uuidcmp: bytewise equality of two 16-byte uuids. -/
def uuidcmp (a b : Nat) : Bool := a == b

/-- uuidcmpzero: comparison against the all-zero uuid. -/
def uuidcmpzero (a : Nat) : Bool := a == 0

/-- rcl_action_server_goal_exists on an initialized server: linear scan of
the goal table comparing uuids, stopping at the first match.  The external
per-handle info query is modelled as always succeeding.  Note the scan
never consults is_active. -/
def goal_exists (goals : List GoalHandle) (info : GoalInfo) : Bool :=
  goals.any (fun g => uuidcmp g.info.uuid info.uuid)

/-- Error outcomes of accept_new_goal that the model distinguishes. -/
inductive AcceptError where
  | goalIdExists
deriving DecidableEq

/-- rcl_action_accept_new_goal on an initialized valid server with a
non-null argument: reject when a tracked handle already carries the uuid,
otherwise append a fresh handle whose info copies the client info but
whose stamp is rewritten from the server clock reading now.  The new
handle starts in the external ACCEPTED state (active and cancelable).
Allocation and clock failures, which return null before the table is
touched, are not modelled; the duplicate check precedes them in the
source, and on success the table is updated exactly once at the end. -/
def accept_new_goal (goals : List GoalHandle) (info : GoalInfo) (now : Int) :
    Except AcceptError (List GoalHandle × GoalHandle) :=
  if goal_exists goals info then .error .goalIdExists
  else
    let stamped := nanosec_to_goal_info_stamp now info
    let h : GoalHandle := { info := stamped, active := true, cancelable := true }
    .ok (goals ++ [h], h)

/-- Single-goal branch of rcl_action_process_cancel_request (request uuid
nonzero, reassembled stamp zero): scan for the first uuid match, include
it when cancelable, and stop scanning at the first match either way. -/
def cancel_select_single (goals : List GoalHandle) (requuid : Nat) : List GoalHandle :=
  match goals with
  | [] => []
  | g :: rest =>
    if uuidcmp requuid g.info.uuid then
      if g.cancelable then [g] else []
    else cancel_select_single rest requuid

/-- Shared loop of the wildcard, time-bounded and union branches of
rcl_action_process_cancel_request: keep every cancelable handle whose
stamp is at or before the request stamp (signed int64 comparison in the
source) or whose uuid matches the request uuid. -/
def cancel_select_by_stamp_or_uuid (goals : List GoalHandle) (requuid : Nat)
    (reqns : Int) : List GoalHandle :=
  goals.filter (fun g =>
    g.cancelable &&
      (decide (goal_info_stamp_to_nanosec g.info ≤ reqns) ||
        uuidcmp requuid g.info.uuid))

/-- INT64_MAX, the value the source substitutes for a wholly-zero cancel
request before entering the shared loop. -/
def INT64_MAX : Int := 9223372036854775807

/-- Selection phase of rcl_action_process_cancel_request: classify the
request by its zero sentinels exactly as the source does and produce the
list of handles that will be transitioned to canceling. -/
def process_cancel_select (goals : List GoalHandle) (req : GoalInfo) : List GoalHandle :=
  let requuid := req.uuid
  let reqns := goal_info_stamp_to_nanosec req
  if !uuidcmpzero requuid && reqns == 0 then
    cancel_select_single goals requuid
  else
    let reqns' := if uuidcmpzero requuid && reqns == 0 then INT64_MAX else reqns
    cancel_select_by_stamp_or_uuid goals requuid reqns'

/-- Return codes of the modelled entry points. -/
inductive Ret where
  | ok
  | error
  | badAlloc
  | serverInvalid
  | invalidArgument
deriving DecidableEq

/-- Return-code behaviour of rcl_action_process_cancel_request on an
initialized valid server with non-null arguments.  tmpAllocOk is the
outcome of allocating the temporary selection array; respInitRet is the
outcome of the external rcl_action_cancel_response_init call.  The
respInitRet failure path mirrors the source statement for statement: the
BAD_ALLOC assignment to ret_final is immediately overwritten by the ERROR
assignment (there is no else between them), after which control goes to
cleanup.  Goal transitions and info copies are modelled as succeeding. -/
def process_cancel_request_ret (goals : List GoalHandle) (req : GoalInfo)
    (tmpAllocOk : Bool) (respInitRet : Ret) : Ret :=
  if !tmpAllocOk then Ret.badAlloc
  else
    let toCancel := process_cancel_select goals req
    if toCancel.length = 0 then Ret.ok
    else if respInitRet ≠ Ret.ok then
      let _retFinalDeadStore :=
        if respInitRet = Ret.badAlloc then Ret.badAlloc else Ret.ok
      Ret.error
    else Ret.ok

/-- One memory read of the goal-handle pointer array at index i.  Indices
inside the buffer return the stored cell (a cell the sweep has nulled out
dereferences to the unspecified nullv); an index at or beyond the
allocation is an out-of-bounds read whose result the C standard leaves
undefined, modelled by the unspecified parameter oob. -/
def readCell (oob nullv : GoalHandle) (buf : List (Option GoalHandle)) (i : Nat) :
    GoalHandle :=
  match buf[i]? with
  | some c => c.getD nullv
  | none => oob

/-- The scan loop of rcl_action_clear_expired_goals, statement for
statement (release build, so the debug assert is compiled out; the
external get_info and handle fini calls are modelled as succeeding):
for i from 0 while i < num: skip active handles; for a terminated handle
whose stamp t satisfies now - t > timeout, fini the handle, then execute
the source's swap, gh[i] = gh[num] followed by gh[num--] = NULL — note
the source reads index num, the position one past the live region, before
decrementing — count it, and let the for-loop advance i.  Returns the
final buffer contents, the final live count, and the removal count. -/
def sweepFrom (now timeout : Int) (oob nullv : GoalHandle) (i : Nat)
    (buf : List (Option GoalHandle)) (num : Nat) (exp : Nat) :
    List (Option GoalHandle) × Nat × Nat :=
  if h : i < num then
    let gh := readCell oob nullv buf i
    if gh.active then
      sweepFrom now timeout oob nullv (i + 1) buf num exp
    else if now - goal_info_stamp_to_nanosec gh.info > timeout then
      let buf' := (buf.set i (some (readCell oob nullv buf num))).set num none
      sweepFrom now timeout oob nullv (i + 1) buf' (num - 1) (exp + 1)
    else
      sweepFrom now timeout oob nullv (i + 1) buf num exp
  else
    (buf, num, exp)
termination_by num - i
decreasing_by all_goals omega

/-- Result of rcl_action_clear_expired_goals as the caller observes it:
the contents of the goal-handle array region, the value of
impl.num_goal_handles after the call, and the count written through
num_expired. -/
structure SweepResult where
  buf : List (Option GoalHandle)
  len : Nat
  removed : Nat
deriving DecidableEq

/-- rcl_action_clear_expired_goals on an initialized valid server whose
clock reads now: run the scan loop over the current table, then mirror the
shrink step of the source.  When every handle was removed the source
deallocates the array but updates neither impl.goal_handles nor
impl.num_goal_handles, so the tracked length stays at its old value; when
some handles remain the source reallocates (modelled as succeeding; note
the source passes num_goal_handles bytes rather than num_goal_handles
times the pointer size, which does not change the logical contents
modelled here) and stores the new length; when nothing was removed
nothing is touched. -/
def clear_expired_goals (now timeout : Int) (oob nullv : GoalHandle)
    (table : List GoalHandle) : SweepResult :=
  let r := sweepFrom now timeout oob nullv 0 (table.map some) table.length 0
  if 0 < r.2.2 then
    if r.2.1 = 0 then
      { buf := r.1, len := table.length, removed := r.2.2 }
    else
      { buf := r.1, len := r.2.1, removed := r.2.2 }
  else
    { buf := r.1, len := table.length, removed := r.2.2 }

/-- Modelled from the spec: the unsigned-comparison variant of the shared
cancel loop that section 4.4 describes with "The comparison treats the
request stamp as an unsigned nanosecond count in the union/time-bounded
branches" — both stamps reinterpreted as uint64 before comparing.  This
definition follows the spec's words and exists only to be compared with
the source-derived cancel_select_by_stamp_or_uuid. -/
def spec_unsigned_select (goals : List GoalHandle) (requuid : Nat)
    (reqns : Int) : List GoalHandle :=
  goals.filter (fun g =>
    g.cancelable &&
      (decide (goal_info_stamp_to_nanosec g.info % 18446744073709551616 ≤
          reqns % 18446744073709551616) ||
        uuidcmp requuid g.info.uuid))

/-! ### Helper lemmas shared by the claim theorems -/

lemma uuidcmp_eq_true_iff (a b : Nat) : uuidcmp a b = true ↔ a = b := by
  simp [uuidcmp]

lemma cancel_select_single_sound (goals : List GoalHandle) (u : Nat) :
    (∀ g ∈ cancel_select_single goals u, g.cancelable = true ∧ g.info.uuid = u) ∧
      (cancel_select_single goals u).length ≤ 1 := by
  induction goals with
  | nil => simp [cancel_select_single]
  | cons g rest ih =>
    cases h : uuidcmp u g.info.uuid with
    | true =>
      have hu : g.info.uuid = u := ((uuidcmp_eq_true_iff u g.info.uuid).mp h).symm
      cases hc : g.cancelable with
      | true =>
        constructor
        · intro g' hg'
          simp [cancel_select_single, h, hc] at hg'
          subst hg'
          exact ⟨hc, hu⟩
        · simp [cancel_select_single, h, hc]
      | false =>
        constructor
        · intro g' hg'
          simp [cancel_select_single, h, hc] at hg'
        · simp [cancel_select_single, h, hc]
    | false =>
      constructor
      · intro g' hg'
        simp only [cancel_select_single, h] at hg'
        exact ih.1 g' (by simpa using hg')
      · simpa [cancel_select_single, h] using ih.2

lemma process_cancel_select_single_eq (goals : List GoalHandle) (req : GoalInfo)
    (hu : req.uuid ≠ 0) (hs : goal_info_stamp_to_nanosec req = 0) :
    process_cancel_select goals req = cancel_select_single goals req.uuid := by
  simp [process_cancel_select, uuidcmpzero, hu, hs]

lemma process_cancel_select_wildcard_eq (goals : List GoalHandle) (req : GoalInfo)
    (hu : req.uuid = 0) (hs : goal_info_stamp_to_nanosec req = 0) :
    process_cancel_select goals req =
      cancel_select_by_stamp_or_uuid goals req.uuid INT64_MAX := by
  simp [process_cancel_select, uuidcmpzero, hu, hs]

lemma process_cancel_select_stamped_eq (goals : List GoalHandle) (req : GoalInfo)
    (hs : goal_info_stamp_to_nanosec req ≠ 0) :
    process_cancel_select goals req =
      cancel_select_by_stamp_or_uuid goals req.uuid (goal_info_stamp_to_nanosec req) := by
  simp [process_cancel_select, uuidcmpzero, hs]

lemma stamp_le_int64_max (g : GoalHandle)
    (hwf : -2147483648 ≤ g.info.stamp.sec ∧ g.info.stamp.sec < 2147483648 ∧
      0 ≤ g.info.stamp.nanosec ∧ g.info.stamp.nanosec < 4294967296) :
    goal_info_stamp_to_nanosec g.info ≤ INT64_MAX := by
  obtain ⟨h1, h2, h3, h4⟩ := hwf
  have hsec : g.info.stamp.sec * 1000000000 ≤ 2147483647 * 1000000000 := by
    have : g.info.stamp.sec ≤ 2147483647 := by omega
    exact Int.mul_le_mul_of_nonneg_right this (by norm_num)
  simp only [goal_info_stamp_to_nanosec, S_TO_NS, INT64_MAX]
  omega

lemma mem_cancel_select_by_stamp_or_uuid (goals : List GoalHandle) (u : Nat)
    (reqns : Int) (g : GoalHandle) :
    g ∈ cancel_select_by_stamp_or_uuid goals u reqns ↔
      g ∈ goals ∧ g.cancelable = true ∧
        (goal_info_stamp_to_nanosec g.info ≤ reqns ∨ g.info.uuid = u) := by
  simp [cancel_select_by_stamp_or_uuid, List.mem_filter, uuidcmp, and_assoc, @eq_comm Nat u]

lemma sweepFrom_no_removal (now timeout : Int) (oob nullv : GoalHandle) :
    ∀ (n i exp : Nat) (buf : List (Option GoalHandle)) (num : Nat),
      num - i ≤ n →
      (∀ j, j < num → ∃ gh, buf[j]? = some (some gh) ∧
        (gh.active = true ∨ now - goal_info_stamp_to_nanosec gh.info ≤ timeout)) →
      sweepFrom now timeout oob nullv i buf num exp = (buf, num, exp) := by
  intro n
  induction n with
  | zero =>
    intro i exp buf num hn hc
    have hni : ¬ i < num := by omega
    rw [sweepFrom]
    simp [hni]
  | succ n ih =>
    intro i exp buf num hn hc
    by_cases hi : i < num
    · obtain ⟨gh, hcell, hprop⟩ := hc i hi
      have hread : readCell oob nullv buf i = gh := by
        simp [readCell, hcell]
      rw [sweepFrom]
      rw [dif_pos hi, hread]
      cases ha : gh.active with
      | true =>
        simp only [ha, if_true]
        exact ih (i + 1) exp buf num (by omega) hc
      | false =>
        have hne : ¬ now - goal_info_stamp_to_nanosec gh.info > timeout := by
          rcases hprop with h | h
          · rw [ha] at h; exact absurd h (by simp)
          · omega
        simp only [ha, Bool.false_eq_true, if_false, if_neg hne]
        exact ih (i + 1) exp buf num (by omega) hc
    · rw [sweepFrom]
      simp [hi]

lemma accept_new_goal_ok_elim (goals : List GoalHandle) (info : GoalInfo) (now : Int)
    (goals' : List GoalHandle) (h : GoalHandle)
    (hok : accept_new_goal goals info now = .ok (goals', h)) :
    goal_exists goals info = false ∧
      h = ⟨nanosec_to_goal_info_stamp now info, true, true⟩ ∧
      goals' = goals ++ [h] := by
  cases he : goal_exists goals info with
  | true => simp [accept_new_goal, he] at hok
  | false =>
    simp only [accept_new_goal, he, Bool.false_eq_true, if_false, Except.ok.injEq,
      Prod.mk.injEq] at hok
    exact ⟨rfl, hok.2.symm, hok.1.symm.trans (by rw [hok.2])⟩

/-! ### Claim theorems -/

/-- Claim C1: process_cancel_request classifies the request by its zero
sentinels: uuid nonzero and stamp zero selects at most the one cancelable
goal with that uuid; both zero selects every cancelable goal; uuid zero
and stamp nonzero selects every cancelable goal with server stamp at or
below the request stamp; both nonzero selects exactly the union of the
stamp-bounded set and the uuid match.  The hypothesis records that every
stored stamp fits its int32 sec / uint32 nanosec fields. -/
theorem cancel_request_selection_classification
    (goals : List GoalHandle) (req : GoalInfo)
    (hwf : ∀ g ∈ goals, -2147483648 ≤ g.info.stamp.sec ∧ g.info.stamp.sec < 2147483648 ∧
      0 ≤ g.info.stamp.nanosec ∧ g.info.stamp.nanosec < 4294967296) :
    ((req.uuid ≠ 0 ∧ goal_info_stamp_to_nanosec req = 0) →
      (∀ g ∈ process_cancel_select goals req,
        g.cancelable = true ∧ g.info.uuid = req.uuid) ∧
      (process_cancel_select goals req).length ≤ 1) ∧
    ((req.uuid = 0 ∧ goal_info_stamp_to_nanosec req = 0) →
      ∀ g ∈ goals, g.cancelable = true → g ∈ process_cancel_select goals req) ∧
    ((req.uuid = 0 ∧ goal_info_stamp_to_nanosec req ≠ 0) →
      ∀ g ∈ goals, g.cancelable = true →
        goal_info_stamp_to_nanosec g.info ≤ goal_info_stamp_to_nanosec req →
        g ∈ process_cancel_select goals req) ∧
    ((req.uuid ≠ 0 ∧ goal_info_stamp_to_nanosec req ≠ 0) →
      ∀ g, g ∈ process_cancel_select goals req ↔
        g ∈ goals ∧ g.cancelable = true ∧
          (goal_info_stamp_to_nanosec g.info ≤ goal_info_stamp_to_nanosec req ∨
            g.info.uuid = req.uuid)) := by
  refine ⟨?_, ?_, ?_, ?_⟩
  · rintro ⟨hu, hs⟩
    rw [process_cancel_select_single_eq goals req hu hs]
    exact cancel_select_single_sound goals req.uuid
  · rintro ⟨hu, hs⟩
    intro g hg hc
    rw [process_cancel_select_wildcard_eq goals req hu hs]
    exact (mem_cancel_select_by_stamp_or_uuid goals req.uuid INT64_MAX g).mpr
      ⟨hg, hc, Or.inl (stamp_le_int64_max g (hwf g hg))⟩
  · rintro ⟨hu, hs⟩
    intro g hg hc hle
    rw [process_cancel_select_stamped_eq goals req hs]
    exact (mem_cancel_select_by_stamp_or_uuid goals req.uuid _ g).mpr ⟨hg, hc, Or.inl hle⟩
  · rintro ⟨hu, hs⟩
    intro g
    rw [process_cancel_select_stamped_eq goals req hs]
    exact mem_cancel_select_by_stamp_or_uuid goals req.uuid _ g

/-- Claim C1 witness: the classification applied to a concrete one-goal
table and a concrete union request. -/
theorem cancel_request_selection_classification_witness :
    (∀ g ∈ [(⟨⟨5, ⟨0, 3⟩⟩, true, true⟩ : GoalHandle)],
      -2147483648 ≤ g.info.stamp.sec ∧ g.info.stamp.sec < 2147483648 ∧
        0 ≤ g.info.stamp.nanosec ∧ g.info.stamp.nanosec < 4294967296) ∧
    (((⟨5, ⟨0, 7⟩⟩ : GoalInfo).uuid ≠ 0 ∧
        goal_info_stamp_to_nanosec ⟨5, ⟨0, 7⟩⟩ = 0) →
      (∀ g ∈ process_cancel_select [⟨⟨5, ⟨0, 3⟩⟩, true, true⟩] ⟨5, ⟨0, 7⟩⟩,
        g.cancelable = true ∧ g.info.uuid = (⟨5, ⟨0, 7⟩⟩ : GoalInfo).uuid) ∧
      (process_cancel_select [⟨⟨5, ⟨0, 3⟩⟩, true, true⟩] ⟨5, ⟨0, 7⟩⟩).length ≤ 1) ∧
    (((⟨5, ⟨0, 7⟩⟩ : GoalInfo).uuid = 0 ∧
        goal_info_stamp_to_nanosec ⟨5, ⟨0, 7⟩⟩ = 0) →
      ∀ g ∈ [(⟨⟨5, ⟨0, 3⟩⟩, true, true⟩ : GoalHandle)], g.cancelable = true →
        g ∈ process_cancel_select [⟨⟨5, ⟨0, 3⟩⟩, true, true⟩] ⟨5, ⟨0, 7⟩⟩) ∧
    (((⟨5, ⟨0, 7⟩⟩ : GoalInfo).uuid = 0 ∧
        goal_info_stamp_to_nanosec ⟨5, ⟨0, 7⟩⟩ ≠ 0) →
      ∀ g ∈ [(⟨⟨5, ⟨0, 3⟩⟩, true, true⟩ : GoalHandle)], g.cancelable = true →
        goal_info_stamp_to_nanosec g.info ≤ goal_info_stamp_to_nanosec ⟨5, ⟨0, 7⟩⟩ →
        g ∈ process_cancel_select [⟨⟨5, ⟨0, 3⟩⟩, true, true⟩] ⟨5, ⟨0, 7⟩⟩) ∧
    (((⟨5, ⟨0, 7⟩⟩ : GoalInfo).uuid ≠ 0 ∧
        goal_info_stamp_to_nanosec ⟨5, ⟨0, 7⟩⟩ ≠ 0) →
      ∀ g, g ∈ process_cancel_select [⟨⟨5, ⟨0, 3⟩⟩, true, true⟩] ⟨5, ⟨0, 7⟩⟩ ↔
        g ∈ [(⟨⟨5, ⟨0, 3⟩⟩, true, true⟩ : GoalHandle)] ∧ g.cancelable = true ∧
          (goal_info_stamp_to_nanosec g.info ≤ goal_info_stamp_to_nanosec ⟨5, ⟨0, 7⟩⟩ ∨
            g.info.uuid = (⟨5, ⟨0, 7⟩⟩ : GoalInfo).uuid)) :=
  ⟨by decide, cancel_request_selection_classification
    [⟨⟨5, ⟨0, 3⟩⟩, true, true⟩] ⟨5, ⟨0, 7⟩⟩ (by decide)⟩

/-- Claim C2 (code bug): with two terminated goals, stamps 0 and 1, clock
100 and timeout 10, both goals satisfy the expiry predicate now - t >
timeout, yet clear_expired_goals reports only one removal and the
surviving slot holds the out-of-bounds junk value (here the handle with
uuid 99) rather than a table entry: the swap copies from index num before
the decrement and the loop bound shrinks, so the second expired goal is
never examined and is dropped from the live region without being removed.
The claimed behaviour (correct swap-remove) would remove both and leave
the table empty with out_count 2. -/
theorem clear_expired_goals_eval_drops_expired :
    clear_expired_goals 100 10 ⟨⟨99, ⟨0, 2⟩⟩, false, true⟩ ⟨⟨77, ⟨0, 3⟩⟩, true, true⟩
        [⟨⟨1, ⟨0, 0⟩⟩, false, true⟩, ⟨⟨2, ⟨0, 1⟩⟩, false, true⟩] =
      ⟨[some ⟨⟨99, ⟨0, 2⟩⟩, false, true⟩, some ⟨⟨2, ⟨0, 1⟩⟩, false, true⟩], 1, 1⟩ ∧
    ([⟨⟨1, ⟨0, 0⟩⟩, false, true⟩, ⟨⟨2, ⟨0, 1⟩⟩, false, true⟩].filter
        (fun g : GoalHandle =>
          !g.active && decide (100 - goal_info_stamp_to_nanosec g.info > 10))).length = 2 := by
  constructor
  · simp [clear_expired_goals, sweepFrom, readCell, goal_info_stamp_to_nanosec, S_TO_NS]
  · decide

/-- Claim C3 (code bug): starting from the same two-expired-goal table and
clock reading 100, the first clear_expired_goals call leaves a one-entry
table whose sole cell is the out-of-bounds junk handle; when that junk
value happens to be a terminated expired handle, a second call at the
same clock reading removes it, reporting 1 through out_count instead of
the claimed 0. -/
theorem clear_expired_goals_not_idempotent :
    ((clear_expired_goals 100 10 ⟨⟨99, ⟨0, 2⟩⟩, false, true⟩ ⟨⟨77, ⟨0, 3⟩⟩, true, true⟩
        [⟨⟨1, ⟨0, 0⟩⟩, false, true⟩, ⟨⟨2, ⟨0, 1⟩⟩, false, true⟩]).buf.take
      (clear_expired_goals 100 10 ⟨⟨99, ⟨0, 2⟩⟩, false, true⟩ ⟨⟨77, ⟨0, 3⟩⟩, true, true⟩
        [⟨⟨1, ⟨0, 0⟩⟩, false, true⟩, ⟨⟨2, ⟨0, 1⟩⟩, false, true⟩]).len) =
      [some ⟨⟨99, ⟨0, 2⟩⟩, false, true⟩] ∧
    (clear_expired_goals 100 10 ⟨⟨77, ⟨0, 3⟩⟩, true, true⟩ ⟨⟨77, ⟨0, 3⟩⟩, true, true⟩
        [⟨⟨99, ⟨0, 2⟩⟩, false, true⟩]).removed = 1 := by
  constructor
  · simp [clear_expired_goals, sweepFrom, readCell, goal_info_stamp_to_nanosec, S_TO_NS]
    decide
  · simp [clear_expired_goals, sweepFrom, readCell, goal_info_stamp_to_nanosec, S_TO_NS]

/-- Claim C6 (code bug): when the external cancel-response allocation
fails with BadAlloc and at least one goal was selected, the source's
missing else makes the BAD_ALLOC assignment to ret_final dead, and
process_cancel_request returns the catch-all Error instead of the claimed
BadAlloc. -/
theorem process_cancel_request_badalloc_becomes_error :
    process_cancel_request_ret [⟨⟨7, ⟨0, 5⟩⟩, true, true⟩] ⟨0, ⟨0, 0⟩⟩
        true Ret.badAlloc = Ret.error ∧
    process_cancel_request_ret [⟨⟨7, ⟨0, 5⟩⟩, true, true⟩] ⟨0, ⟨0, 0⟩⟩
        true Ret.badAlloc ≠ Ret.badAlloc := by
  decide

/-- Claim C7 counterexample: at t = 2^31 * 10^9 (a non-negative
nanosecond count) the int32 cast in the seconds conversion wraps, and
reassembling the split stamp yields -2^31 * 10^9, not t. -/
theorem stamp_roundtrip_fails_at_int32_overflow :
    (0 : Int) ≤ 2147483648000000000 ∧
    goal_info_stamp_to_nanosec
        (nanosec_to_goal_info_stamp 2147483648000000000 ⟨0, ⟨0, 0⟩⟩) ≠
      2147483648000000000 := by
  constructor
  · decide
  · intro h
    have : goal_info_stamp_to_nanosec
        (nanosec_to_goal_info_stamp 2147483648000000000 ⟨0, ⟨0, 0⟩⟩) =
        -2147483648000000000 := by decide
    omega

/-- Claim C7 amended: the split-and-reassemble round-trip sec * 10^9 +
nanosec = t holds for every nanosecond count t with 0 ≤ t < 2^31 * 10^9,
the range in which the truncating division fits the int32 sec field. -/
theorem stamp_roundtrip_below_int32_bound (t : Int) (g : GoalInfo)
    (h0 : 0 ≤ t) (h1 : t < 2147483648000000000) :
    goal_info_stamp_to_nanosec (nanosec_to_goal_info_stamp t g) = t := by
  simp only [goal_info_stamp_to_nanosec, nanosec_to_goal_info_stamp, S_TO_NS, NS_TO_S,
    wrapInt32, wrapUInt32, Int.tdiv_eq_ediv h0 (by norm_num : (0:Int) ≤ 1000000000),
    Int.tmod_eq_emod h0 (by norm_num : (0:Int) ≤ 1000000000)]
  omega

/-- Claim C7 witness: the amended round-trip at t = 42. -/
theorem stamp_roundtrip_below_int32_bound_witness :
    (0 : Int) ≤ 42 ∧ (42 : Int) < 2147483648000000000 ∧
    goal_info_stamp_to_nanosec (nanosec_to_goal_info_stamp 42 ⟨9, ⟨1, 2⟩⟩) = 42 :=
  ⟨by decide, by decide,
    stamp_roundtrip_below_int32_bound 42 ⟨9, ⟨1, 2⟩⟩ (by decide) (by decide)⟩

/-- Claim C8 counterexample: a cancelable goal with stamp 5 and a request
whose fields reassemble to the negative value -10^9 (sec = -1, nanosec =
0, uuid zero).  The source's signed comparison selects nothing, while the
unsigned-comparison reading of the spec would select the goal. -/
theorem cancel_stamp_comparison_not_unsigned :
    goal_info_stamp_to_nanosec ⟨0, ⟨-1, 0⟩⟩ < 0 ∧
    process_cancel_select [⟨⟨7, ⟨0, 5⟩⟩, true, true⟩] ⟨0, ⟨-1, 0⟩⟩ = [] ∧
    spec_unsigned_select [⟨⟨7, ⟨0, 5⟩⟩, true, true⟩] 0
        (goal_info_stamp_to_nanosec ⟨0, ⟨-1, 0⟩⟩) =
      [⟨⟨7, ⟨0, 5⟩⟩, true, true⟩] := by
  decide

/-- Claim C8 amended: the union and time-bounded branches compare the
reassembled request stamp as a signed 64-bit count, so a request that
reassembles to a negative value selects, among goals with non-negative
stamps, exactly the cancelable goals whose uuid matches the request
uuid — the stamp criterion selects none of them. -/
theorem cancel_stamp_comparison_signed (goals : List GoalHandle) (req : GoalInfo)
    (hneg : goal_info_stamp_to_nanosec req < 0)
    (hpos : ∀ g ∈ goals, 0 ≤ goal_info_stamp_to_nanosec g.info) :
    ∀ g, g ∈ process_cancel_select goals req ↔
      g ∈ goals ∧ g.cancelable = true ∧ g.info.uuid = req.uuid := by
  intro g
  rw [process_cancel_select_stamped_eq goals req (by omega),
    mem_cancel_select_by_stamp_or_uuid]
  constructor
  · rintro ⟨hg, hc, hle | he⟩
    · exact absurd hle (by have := hpos g hg; omega)
    · exact ⟨hg, hc, he⟩
  · rintro ⟨hg, hc, he⟩
    exact ⟨hg, hc, Or.inr he⟩

/-- Claim C8 amended witness: the signed-comparison characterization at a
concrete one-goal table and a concrete negative-stamp request. -/
theorem cancel_stamp_comparison_signed_witness :
    goal_info_stamp_to_nanosec ⟨3, ⟨-1, 0⟩⟩ < 0 ∧
    (∀ g ∈ [(⟨⟨3, ⟨0, 5⟩⟩, true, true⟩ : GoalHandle)],
      0 ≤ goal_info_stamp_to_nanosec g.info) ∧
    (∀ g, g ∈ process_cancel_select [⟨⟨3, ⟨0, 5⟩⟩, true, true⟩] ⟨3, ⟨-1, 0⟩⟩ ↔
      g ∈ [(⟨⟨3, ⟨0, 5⟩⟩, true, true⟩ : GoalHandle)] ∧ g.cancelable = true ∧
        g.info.uuid = (⟨3, ⟨-1, 0⟩⟩ : GoalInfo).uuid) :=
  ⟨by decide, by decide,
    cancel_stamp_comparison_signed [⟨⟨3, ⟨0, 5⟩⟩, true, true⟩] ⟨3, ⟨-1, 0⟩⟩
      (by decide) (by decide)⟩

/-- Claim C4: a successful accept_new_goal stores a handle whose uuid is
the client uuid and whose stamp is the server clock reading now, split
into sec and nanosec by the source conversion — not the client-supplied
info.stamp, whose value does not appear in the result. -/
theorem accept_new_goal_restamps_with_clock (goals : List GoalHandle)
    (info : GoalInfo) (now : Int) (goals' : List GoalHandle) (h : GoalHandle)
    (hok : accept_new_goal goals info now = .ok (goals', h)) :
    h.info.uuid = info.uuid ∧
    h.info.stamp.sec = wrapInt32 (NS_TO_S now) ∧
    h.info.stamp.nanosec = wrapUInt32 (Int.tmod now 1000000000) ∧
    goals' = goals ++ [h] := by
  obtain ⟨-, hh, hgoals⟩ := accept_new_goal_ok_elim goals info now goals' h hok
  subst hh
  exact ⟨rfl, rfl, rfl, hgoals⟩

/-- Claim C4 witness: accepting uuid 9 with client stamp (1, 2) at clock
reading 42 stores stamp (0, 42) and uuid 9. -/
theorem accept_new_goal_restamps_with_clock_witness :
    accept_new_goal [] ⟨9, ⟨1, 2⟩⟩ 42 =
      .ok ([⟨⟨9, ⟨0, 42⟩⟩, true, true⟩], ⟨⟨9, ⟨0, 42⟩⟩, true, true⟩) ∧
    ((⟨⟨9, ⟨0, 42⟩⟩, true, true⟩ : GoalHandle).info.uuid = (⟨9, ⟨1, 2⟩⟩ : GoalInfo).uuid ∧
      (⟨⟨9, ⟨0, 42⟩⟩, true, true⟩ : GoalHandle).info.stamp.sec = wrapInt32 (NS_TO_S 42) ∧
      (⟨⟨9, ⟨0, 42⟩⟩, true, true⟩ : GoalHandle).info.stamp.nanosec =
        wrapUInt32 (Int.tmod 42 1000000000) ∧
      [(⟨⟨9, ⟨0, 42⟩⟩, true, true⟩ : GoalHandle)] = [] ++ [⟨⟨9, ⟨0, 42⟩⟩, true, true⟩]) :=
  ⟨rfl, accept_new_goal_restamps_with_clock [] ⟨9, ⟨1, 2⟩⟩ 42
    [⟨⟨9, ⟨0, 42⟩⟩, true, true⟩] ⟨⟨9, ⟨0, 42⟩⟩, true, true⟩ rfl⟩

/-- Claim C5: when a first accept_new_goal with some info succeeds, a
second call with the same info (same uuid) returns the duplicate-uuid
error — the source sets an error message and returns null before touching
the table — and the table grew by exactly one entry across the two
calls. -/
theorem accept_new_goal_duplicate_rejected (goals : List GoalHandle)
    (info : GoalInfo) (now now' : Int) (goals' : List GoalHandle) (h : GoalHandle)
    (hok : accept_new_goal goals info now = .ok (goals', h)) :
    accept_new_goal goals' info now' = .error .goalIdExists ∧
    goals'.length = goals.length + 1 := by
  obtain ⟨-, hh, hgoals⟩ := accept_new_goal_ok_elim goals info now goals' h hok
  have huuid : h.info.uuid = info.uuid := by rw [hh]; simp [nanosec_to_goal_info_stamp]
  have hexists : goal_exists goals' info = true := by
    subst hgoals
    refine List.any_eq_true.mpr ⟨h, List.mem_append_right _ (List.mem_singleton.mpr rfl), ?_⟩
    simp [uuidcmp, huuid]
  refine ⟨by simp [accept_new_goal, hexists], ?_⟩
  subst hgoals
  simp

/-- Claim C5 witness: accepting uuid 9 twice from the empty table. -/
theorem accept_new_goal_duplicate_rejected_witness :
    accept_new_goal [] ⟨9, ⟨1, 2⟩⟩ 42 =
      .ok ([⟨⟨9, ⟨0, 42⟩⟩, true, true⟩], ⟨⟨9, ⟨0, 42⟩⟩, true, true⟩) ∧
    (accept_new_goal [⟨⟨9, ⟨0, 42⟩⟩, true, true⟩] ⟨9, ⟨1, 2⟩⟩ 50 =
        .error .goalIdExists ∧
      [(⟨⟨9, ⟨0, 42⟩⟩, true, true⟩ : GoalHandle)].length = ([] : List GoalHandle).length + 1) :=
  ⟨rfl, accept_new_goal_duplicate_rejected [] ⟨9, ⟨1, 2⟩⟩ 42 50
    [⟨⟨9, ⟨0, 42⟩⟩, true, true⟩] ⟨⟨9, ⟨0, 42⟩⟩, true, true⟩ rfl⟩

/-- Claim C9: with a non-negative timeout, whenever every terminated goal
in the table has stamp at or after the clock reading now (a backward or
non-advancing clock), the release-build clear_expired_goals removes
nothing and returns the table bit-for-bit unchanged with out_count 0,
for every possible content of out-of-bounds memory: the expiry test
now - t > timeout is false when now ≤ t, so no swap and no out-of-bounds
access happens.  Only the debug assertion now > t would fire. -/
theorem clear_expired_goals_backward_clock (table : List GoalHandle)
    (now timeout : Int) (oob nullv : GoalHandle) (hto : 0 ≤ timeout)
    (hterm : ∀ h ∈ table, h.active = false → now ≤ goal_info_stamp_to_nanosec h.info) :
    clear_expired_goals now timeout oob nullv table =
      ⟨table.map some, table.length, 0⟩ := by
  have hsweep : sweepFrom now timeout oob nullv 0 (table.map some) table.length 0 =
      (table.map some, table.length, 0) := by
    apply sweepFrom_no_removal now timeout oob nullv table.length 0 0
    · omega
    · intro j hj
      refine ⟨table[j], ?_, ?_⟩
      · rw [List.getElem?_map, List.getElem?_eq_getElem hj]
        rfl
      · have hmem : table[j] ∈ table := List.getElem_mem hj
        cases hact : (table[j]).active with
        | true => exact Or.inl rfl
        | false =>
          exact Or.inr (by have := hterm table[j] hmem hact; omega)
  simp [clear_expired_goals, hsweep]

/-- Claim C9 witness: a single terminated goal stamped 50 observed at
clock reading 40 with timeout 10 survives unchanged. -/
theorem clear_expired_goals_backward_clock_witness :
    (0 : Int) ≤ 10 ∧
    (∀ h ∈ [(⟨⟨1, ⟨0, 50⟩⟩, false, true⟩ : GoalHandle)], h.active = false →
      (40 : Int) ≤ goal_info_stamp_to_nanosec h.info) ∧
    clear_expired_goals 40 10 ⟨⟨77, ⟨0, 3⟩⟩, true, true⟩ ⟨⟨77, ⟨0, 3⟩⟩, true, true⟩
        [⟨⟨1, ⟨0, 50⟩⟩, false, true⟩] =
      ⟨[some ⟨⟨1, ⟨0, 50⟩⟩, false, true⟩], 1, 0⟩ :=
  ⟨by decide, by decide,
    clear_expired_goals_backward_clock [⟨⟨1, ⟨0, 50⟩⟩, false, true⟩] 40 10
      ⟨⟨77, ⟨0, 3⟩⟩, true, true⟩ ⟨⟨77, ⟨0, 3⟩⟩, true, true⟩ (by decide) (by decide)⟩

/-- Claim C10: duplicate-uuid rejection spans terminated-but-retained
goals: whenever any tracked handle carries the requested uuid — active or
not, since the goal_exists scan never consults is_active —
accept_new_goal rejects with the duplicate error. -/
theorem accept_new_goal_rejects_uuid_of_any_tracked_handle
    (goals : List GoalHandle) (info : GoalInfo) (now : Int) (g : GoalHandle)
    (hg : g ∈ goals) (huuid : g.info.uuid = info.uuid) :
    accept_new_goal goals info now = .error .goalIdExists := by
  have hexists : goal_exists goals info = true :=
    List.any_eq_true.mpr ⟨g, hg, by simp [uuidcmp, huuid]⟩
  simp [accept_new_goal, hexists]

/-- Claim C10 witness: a table whose only handle is terminated (active =
false) and carries uuid 4; accepting uuid 4 is rejected. -/
theorem accept_new_goal_rejects_uuid_of_any_tracked_handle_witness :
    (⟨⟨4, ⟨0, 0⟩⟩, false, false⟩ : GoalHandle) ∈
      [(⟨⟨4, ⟨0, 0⟩⟩, false, false⟩ : GoalHandle)] ∧
    (⟨⟨4, ⟨0, 0⟩⟩, false, false⟩ : GoalHandle).info.uuid = (⟨4, ⟨5, 5⟩⟩ : GoalInfo).uuid ∧
    accept_new_goal [⟨⟨4, ⟨0, 0⟩⟩, false, false⟩] ⟨4, ⟨5, 5⟩⟩ 42 =
      .error .goalIdExists :=
  ⟨by decide, by decide,
    accept_new_goal_rejects_uuid_of_any_tracked_handle
      [⟨⟨4, ⟨0, 0⟩⟩, false, false⟩] ⟨4, ⟨5, 5⟩⟩ 42 ⟨⟨4, ⟨0, 0⟩⟩, false, false⟩
      (by decide) (by decide)⟩
